import Mathlib

/-!
Verification of the w1-netlink codec (`src/proto/{command,message,connector}.rs`
and the generic trait impls in `src/proto/mod.rs`).

The three codec layers are embedded as pure Lean functions over `List Nat`
byte lists (each entry is one `u8`; little-endian integer fields are read and
written explicitly).  Fallible Rust paths are modelled by explicit outcome
types:

* `DOutcome ε α` for the `Deserializable` trait: `ok` is `Ok`, `err` is a
  returned `Err` value, `panicked` marks a Rust panic (slice indexing out of
  bounds, `todo!()`, `unimplemented!()`, `copy_from_slice` length mismatch),
  and `diverge` marks a loop that can never terminate.
* `SOutcome α` for the `Serializable` trait, whose only failure mode is a
  panic.
-/

/-- Little-endian interpretation of a byte list, least significant byte
first, as produced by `u16::from_le_bytes` / `u32::from_le_bytes` /
`u64::from_le_bytes` on the corresponding slice widths. -/
def fromLE : List Nat → Nat
  | [] => 0
  | b :: bs => b + 256 * fromLE bs

/-- Little-endian encoding of `x` into exactly `w` bytes, as produced by
`to_le_bytes` (higher bytes are truncated, matching the fixed-width Rust
integer types). -/
def toLE : Nat → Nat → List Nat
  | 0, _ => []
  | w + 1, x => x % 256 :: toLE w (x / 256)

/-- Outcome of a `Deserializable::deserialize` call. -/
inductive DOutcome (ε α : Type) : Type where
  | ok : α → DOutcome ε α
  | err : ε → DOutcome ε α
  | panicked : DOutcome ε α
  | diverge : DOutcome ε α
deriving DecidableEq

/-- Outcome of a `Serializable` method call (`buffer_len` or `serialize`). -/
inductive SOutcome (α : Type) : Type where
  | ok : α → SOutcome α
  | panicked : SOutcome α
deriving DecidableEq

/-- The `W1NetlinkCommand` enum of `src/proto/command.rs`. -/
inductive W1NetlinkCommand : Type where
  | write : List Nat → W1NetlinkCommand
  | read : Option (List Nat) → W1NetlinkCommand
  | search : W1NetlinkCommand
  | alarmSearch : W1NetlinkCommand
  | touch : W1NetlinkCommand
  | reset : W1NetlinkCommand
  | listSlaves : W1NetlinkCommand
deriving DecidableEq

/-- The opcode byte of a command: `W1NetlinkCommand::cmd_type` composed with
`u8::from(W1CommandType)` (constants `W1_CMD_*`). -/
def W1NetlinkCommand.opcode : W1NetlinkCommand → Nat
  | .write _ => 1
  | .read _ => 0
  | .search => 2
  | .alarmSearch => 3
  | .touch => 4
  | .reset => 5
  | .listSlaves => 8

/-- The command-layer `DeserializeError` of `src/proto/command.rs`
(`InvalidType` wraps the `InvalidValue` byte). -/
inductive CmdDeserializeError : Type where
  | invalidType : Nat → CmdDeserializeError
  | invalidHeader : CmdDeserializeError
deriving DecidableEq

/-- Embedding of `<W1NetlinkCommand as Deserializable>::deserialize`.

The source first runs `payload.split_at(4)` (a panic when fewer than 4 bytes
are available), transmutes the 4 header bytes (`cmd`, `_res`, `len` as
little-endian `u16`; the transmute cannot fail on an exactly-4-byte slice),
then dispatches on the opcode.  `Read` keeps the whole remaining slice as its
payload when `len > 0` and no payload otherwise; `Write` keeps the whole
remaining slice unconditionally; opcodes 6 and 7 hit `unimplemented!()`.
The returned byte count is `len as usize`. -/
def W1NetlinkCommand.deserialize : List Nat →
    DOutcome CmdDeserializeError (W1NetlinkCommand × Nat)
  | c :: _res :: l0 :: l1 :: rest =>
    let len := fromLE [l0, l1]
    if c = 0 then .ok (.read (if len > 0 then some rest else none), len)
    else if c = 1 then .ok (.write rest, len)
    else if c = 2 then .ok (.search, len)
    else if c = 3 then .ok (.alarmSearch, len)
    else if c = 4 then .ok (.touch, len)
    else if c = 5 then .ok (.reset, len)
    else if c = 6 then .panicked
    else if c = 7 then .panicked
    else if c = 8 then .ok (.listSlaves, len)
    else .err (.invalidType c)
  | _ => .panicked

/-- Embedding of `<W1NetlinkCommand as Serializable>::buffer_len`
(`ListSlaves` is `todo!()`). -/
def W1NetlinkCommand.buffer_len : W1NetlinkCommand → SOutcome Nat
  | .write pl => .ok (pl.length + 4)
  | .read pl => .ok ((pl.map List.length).getD 0 + 4)
  | .search => .ok 4
  | .alarmSearch => .ok 4
  | .touch => .ok 4
  | .reset => .ok 4
  | .listSlaves => .panicked

/-- Embedding of `<W1NetlinkCommand as Serializable>::serialize`, writing into
the caller-supplied `buffer` and returning the buffer contents afterwards.

The source first evaluates `self.buffer_len()` for the `len` header field
(panicking for `ListSlaves`), writes the 4-byte header into `buffer[0..4]`
(a panic when the buffer is shorter than 4), then for `Write` and for `Read`
with a present payload runs `buffer[4..].copy_from_slice(payload)`, which
panics unless the rest of the buffer has exactly the payload's length. -/
def W1NetlinkCommand.serializeInto (c : W1NetlinkCommand) (buffer : List Nat) :
    SOutcome (List Nat) :=
  match c.buffer_len with
  | .panicked => .panicked
  | .ok bl =>
    if buffer.length < 4 then .panicked
    else
      let header := [c.opcode, 0] ++ toLE 2 ((bl - 4) % 65536)
      match c with
      | .write pl =>
          if buffer.length - 4 = pl.length then .ok (header ++ pl) else .panicked
      | .read (some pl) =>
          if buffer.length - 4 = pl.length then .ok (header ++ pl) else .panicked
      | _ => .ok (header ++ buffer.drop 4)

/-- Command serialization into a freshly allocated buffer of exactly
`buffer_len` zero bytes, which is how every caller in the source allocates
(`vec![0; buffer_len]` in `W1NetlinkMessage::serialize`). -/
def W1NetlinkCommand.serialize (c : W1NetlinkCommand) : SOutcome (List Nat) :=
  match c.buffer_len with
  | .ok bl => c.serializeInto (List.replicate bl 0)
  | .panicked => .panicked

/-- The `EventKind` enum of `src/proto/message.rs`. -/
inductive EventKind : Type where
  | add : EventKind
  | remove : EventKind
deriving DecidableEq

/-- The `W1NetlinkMessage` enum of `src/proto/message.rs`.  Master targets are
`u32` values and slave targets `u64` values, both modelled as `Nat`;
list-masters identifiers are `u32` values. -/
inductive W1NetlinkMessage : Type where
  | listMasters : Option (List Nat) → W1NetlinkMessage
  | masterCommand : Nat → List W1NetlinkCommand → W1NetlinkMessage
  | slaveCommand : Nat → List W1NetlinkCommand → W1NetlinkMessage
  | masterEvent : EventKind → Nat → W1NetlinkMessage
  | slaveEvent : EventKind → Nat → W1NetlinkMessage
deriving DecidableEq

/-- The message-layer `DeserializeError` of `src/proto/message.rs`
(`InvalidMessageType` wraps the offending `InvalidValue` byte, `Command`
wraps a command-layer error). -/
inductive MsgDeserializeError : Type where
  | invalidHeader : MsgDeserializeError
  | invalidMessageType : Nat → MsgDeserializeError
  | invalidPayloadLength : MsgDeserializeError
  | command : CmdDeserializeError → MsgDeserializeError
deriving DecidableEq

/-- The `while cursor < len` loop of `impl<T> Deserializable for Vec<T>` in
`src/proto/mod.rs`, instantiated at `T = W1NetlinkCommand`.

`fuel` merely bounds the recursion depth: an iteration that consumes at least
one byte strictly decreases `payload.length - cursor`, so the initial fuel of
`payload.length + 1` can never run out on a terminating execution.  An
iteration that reads zero bytes while `cursor < payload.length` calls the pure
`deserialize` again on the identical slice and therefore repeats forever; this
non-termination of the source loop is modelled as `.diverge`. -/
def cmdVecLoop (payload : List Nat) : Nat → Nat → List W1NetlinkCommand →
    DOutcome CmdDeserializeError (List W1NetlinkCommand × Nat)
  | 0, _, _ => .diverge
  | fuel + 1, cursor, acc =>
    if cursor < payload.length then
      match W1NetlinkCommand.deserialize (payload.drop cursor) with
      | .ok (item, read) =>
          if read = 0 then .diverge
          else cmdVecLoop payload fuel (cursor + read) (acc ++ [item])
      | .err e => .err e
      | .panicked => .panicked
      | .diverge => .diverge
    else .ok (acc, cursor)

/-- Embedding of `<Vec<W1NetlinkCommand> as Deserializable>::deserialize`
(`src/proto/mod.rs`): loop from cursor 0 with an empty accumulator. -/
def cmdVecDeserialize (payload : List Nat) :
    DOutcome CmdDeserializeError (List W1NetlinkCommand × Nat) :=
  cmdVecLoop payload (payload.length + 1) 0 []

/-- The `payload.chunks(4)` loop of the `ListMasters` branch of
`W1NetlinkMessage::deserialize`: every full 4-byte chunk becomes a
little-endian `u32` identifier; reaching a trailing 1–3 byte chunk aborts
with `InvalidPayloadLength` (modelled by `none`). -/
def parseU32List : List Nat → Option (List Nat)
  | [] => some []
  | a :: b :: c :: d :: rest => (parseU32List rest).map (fromLE [a, b, c, d] :: ·)
  | _ => none

/-- Embedding of `<W1NetlinkMessage as Deserializable>::deserialize`.

Ordering as in the source: `payload.split_at(12)` (a panic when fewer than 12
bytes are available), header transmute (cannot fail on an exactly-12-byte
slice), the `status > 0` check (which hits `todo!()`, a panic), the message
type mapping (`InvalidMessageType` for an unknown byte), then the body
dispatch.  The `MasterCmd`/`SlaveCmd` branches hand the whole remainder to the
`Vec` deserializer; the returned byte count is the declared `len + 12`. -/
def W1NetlinkMessage.deserialize (payload : List Nat) :
    DOutcome MsgDeserializeError (W1NetlinkMessage × Nat) :=
  match payload with
  | t :: status :: l0 :: l1 :: i0 :: i1 :: i2 :: i3 :: i4 :: i5 :: i6 :: i7 :: rest =>
    if status > 0 then .panicked
    else
      let len := fromLE [l0, l1]
      if t = 0 then .ok (.slaveEvent .add (fromLE [i0, i1, i2, i3, i4, i5, i6, i7]), len + 12)
      else if t = 1 then .ok (.slaveEvent .remove (fromLE [i0, i1, i2, i3, i4, i5, i6, i7]), len + 12)
      else if t = 2 then .ok (.masterEvent .add (fromLE [i0, i1, i2, i3]), len + 12)
      else if t = 3 then .ok (.masterEvent .remove (fromLE [i0, i1, i2, i3]), len + 12)
      else if t = 4 then
        match cmdVecDeserialize rest with
        | .ok (cmds, _) => .ok (.masterCommand (fromLE [i0, i1, i2, i3]) cmds, len + 12)
        | .err e => .err (.command e)
        | .panicked => .panicked
        | .diverge => .diverge
      else if t = 5 then
        match cmdVecDeserialize rest with
        | .ok (cmds, _) => .ok (.slaveCommand (fromLE [i0, i1, i2, i3, i4, i5, i6, i7]) cmds, len + 12)
        | .err e => .err (.command e)
        | .panicked => .panicked
        | .diverge => .diverge
      else if t = 6 then
        match parseU32List rest with
        | some ids => .ok (.listMasters (some ids), len + 12)
        | none => .err .invalidPayloadLength
      else .err (.invalidMessageType t)
  | _ => .panicked

/-- The `cmds.iter().map(Serializable::buffer_len).sum()` expression used by
`W1NetlinkMessage::buffer_len` and `W1NetlinkMessage::serialize`; it panics as
soon as one command's `buffer_len` panics. -/
def cmdListBufferLen : List W1NetlinkCommand → SOutcome Nat
  | [] => .ok 0
  | c :: cs =>
    match c.buffer_len, cmdListBufferLen cs with
    | .ok a, .ok b => .ok (a + b)
    | _, _ => .panicked

/-- Embedding of `<W1NetlinkMessage as Serializable>::buffer_len`. -/
def W1NetlinkMessage.buffer_len : W1NetlinkMessage → SOutcome Nat
  | .listMasters ids => .ok ((ids.map (fun l => l.length * 4)).getD 0 + 12)
  | .masterCommand _ cmds =>
    match cmdListBufferLen cmds with
    | .ok n => .ok (n + 12)
    | .panicked => .panicked
  | .slaveCommand _ cmds =>
    match cmdListBufferLen cmds with
    | .ok n => .ok (n + 12)
    | .panicked => .panicked
  | .masterEvent _ _ => .ok 12
  | .slaveEvent _ _ => .ok 12

/-- The `for cmd in cmds { cmd.serialize(&mut pl); }` loop of the
`MasterCommand` branch of `W1NetlinkMessage::serialize`: every command is
written into the whole shared buffer `pl`, each at offset 0. -/
def cmdListSerializeLoop : List W1NetlinkCommand → List Nat → SOutcome (List Nat)
  | [], pl => .ok pl
  | c :: cs, pl =>
    match c.serializeInto pl with
    | .ok pl2 => cmdListSerializeLoop cs pl2
    | .panicked => .panicked

/-- Embedding of `<W1NetlinkMessage as Serializable>::serialize`, returning
the bytes written into the caller's exactly-`buffer_len`-sized buffer.

The source first evaluates `self.buffer_len()` for the header `len` field
(propagating its panics), then builds `(msg_type, id, payload)`:
`ListMasters` flattens the optional identifier list (an absent list encodes as
no bytes, exactly like an empty one); `MasterCommand` packs the `u32` target
into the low 4 bytes of the id and serializes every command into one shared
`vec![0; buffer_len]`; `SlaveCommand`, `MasterEvent` and `SlaveEvent` are
`todo!()` panics.  Header layout: type, status 0, `len` as `u16`, 8 id
bytes. -/
def W1NetlinkMessage.serialize (m : W1NetlinkMessage) : SOutcome (List Nat) :=
  match m.buffer_len with
  | .panicked => .panicked
  | .ok bl =>
    let len := (bl - 12) % 65536
    match m with
    | .listMasters ids =>
        let pl := (ids.map (fun l => (l.map (toLE 4)).flatten)).getD []
        .ok ([6, 0] ++ toLE 2 len ++ toLE 8 0 ++ pl)
    | .masterCommand target cmds =>
        let idBytes := toLE 4 target ++ [0, 0, 0, 0]
        match cmdListBufferLen cmds with
        | .panicked => .panicked
        | .ok n =>
          match cmdListSerializeLoop cmds (List.replicate n 0) with
          | .panicked => .panicked
          | .ok pl => .ok ([4, 0] ++ toLE 2 len ++ idBytes ++ pl)
    | _ => .panicked

/-- The value of `netlink_sys::constants::NETLINK_CONNECTOR`, the netlink
protocol number used by `NlConnectorMessage` for its transport message-type
check (an external crate constant, fixed by the Linux uapi headers). -/
def NETLINK_CONNECTOR : Nat := 11

/-- `CONNECTOR_W1_IDX` from `src/proto/message.rs`: the registered connector
index of the w1 family, returned by `NlConnectorType::idx()`. -/
def CONNECTOR_W1_IDX : Nat := 3

/-- `CONNECTOR_W1_VAL` from `src/proto/message.rs`: the registered connector
value of the w1 family, returned by `NlConnectorType::val()`. -/
def CONNECTOR_W1_VAL : Nat := 1

/-- The `NlConnectorHeader` struct of `src/proto/connector.rs`. -/
structure NlConnectorHeader : Type where
  seq : Nat
  ack : Nat
  flags : Nat
deriving DecidableEq

/-- The `NlConnectorMessage<W1NetlinkMessage>` struct of
`src/proto/connector.rs`. -/
structure NlConnectorMessage : Type where
  header : NlConnectorHeader
  payload : List W1NetlinkMessage
deriving DecidableEq

/-- The connector-layer `DeserializeError` of `src/proto/connector.rs`
(`UnexpectedIdx`/`UnexpectedVal` carry the expected and the actual value,
`inner` wraps a message-layer error). -/
inductive ConnDeserializeError : Type where
  | invalidMessageType : ConnDeserializeError
  | invalidHeader : ConnDeserializeError
  | invalidPayloadLength : ConnDeserializeError
  | unexpectedIdx : Nat → Nat → ConnDeserializeError
  | unexpectedVal : Nat → Nat → ConnDeserializeError
  | inner : MsgDeserializeError → ConnDeserializeError
deriving DecidableEq

/-- Embedding of
`<NlConnectorMessage<W1NetlinkMessage> as NetlinkDeserializable>::deserialize`.
`message_type` is the type field of the surrounding `NetlinkHeader`.

Ordering as in the source: transport message-type check, then
`payload.split_at(20)` (a panic when fewer than 20 bytes are available), the
`CnMsg` transmute (cannot fail on an exactly-20-byte slice), the check of the
declared `len` against `payload.len()` — the length of the WHOLE input slice,
header included, because at that point `payload` still names the function
argument — and then the `idx` and `val` checks.

About the message loop: immediately before `while cursor < payload.len()` the
source rebinds `payload` to a freshly created accumulator `Vec`, so the loop
condition compares `cursor = 0` against the empty accumulator's length and
the body never executes; the decoded message list is therefore always empty
and `T::deserialize` is never invoked. -/
def NlConnectorMessage.deserialize (message_type : Nat) (payload : List Nat) :
    DOutcome ConnDeserializeError NlConnectorMessage :=
  if message_type ≠ NETLINK_CONNECTOR then .err .invalidMessageType
  else if payload.length < 20 then .panicked
  else
    let idx := fromLE (payload.take 4)
    let val := fromLE ((payload.drop 4).take 4)
    let seq := fromLE ((payload.drop 8).take 4)
    let ack := fromLE ((payload.drop 12).take 4)
    let len := fromLE ((payload.drop 16).take 2)
    let flags := fromLE ((payload.drop 18).take 2)
    if len ≠ payload.length then .err .invalidPayloadLength
    else if idx ≠ CONNECTOR_W1_IDX then .err (.unexpectedIdx CONNECTOR_W1_IDX idx)
    else if val ≠ CONNECTOR_W1_VAL then .err (.unexpectedVal CONNECTOR_W1_VAL val)
    else .ok { header := { seq := seq, ack := ack, flags := flags }, payload := [] }

/-! Supporting lemmas. -/

theorem fromLE_toLE2 (n : Nat) (h : n < 65536) : fromLE (toLE 2 n) = n := by
  simp [toLE, fromLE]
  omega

/-- Commands whose encode-then-decode round-trip reproduces the value:
everything except `ListSlaves` (whose encode panics) and `Read` with a present
payload of length divisible by 2^16 (whose truncated `len` field decodes to an
absent payload). -/
def cmdRoundtripSupported : W1NetlinkCommand → Prop
  | .read (some pl) => pl.length % 65536 ≠ 0
  | .listSlaves => False
  | _ => True

theorem write_serialize (pl : List Nat) :
    (W1NetlinkCommand.write pl).serialize =
      .ok (1 :: 0 :: (toLE 2 (pl.length % 65536) ++ pl)) := by
  simp only [W1NetlinkCommand.serialize, W1NetlinkCommand.buffer_len]
  simp only [W1NetlinkCommand.serializeInto, W1NetlinkCommand.buffer_len,
    W1NetlinkCommand.opcode, List.length_replicate]
  rw [if_neg (by omega), if_pos (by omega)]
  simp [Nat.add_sub_cancel]

theorem read_some_serialize (pl : List Nat) :
    (W1NetlinkCommand.read (some pl)).serialize =
      .ok (0 :: 0 :: (toLE 2 (pl.length % 65536) ++ pl)) := by
  have h1 : ((some pl).map List.length).getD 0 = pl.length := rfl
  simp only [W1NetlinkCommand.serialize, W1NetlinkCommand.buffer_len, h1]
  simp only [W1NetlinkCommand.serializeInto, W1NetlinkCommand.buffer_len,
    W1NetlinkCommand.opcode, List.length_replicate, h1]
  rw [if_neg (by omega), if_pos (by omega)]
  simp [Nat.add_sub_cancel]

/-- C1 (counterexample): the round-trip claim fails as stated.  A `Read`
command with a present-but-empty payload is a constructible value; its
encoding is the same four header bytes as a payload-free `Read` request, and
decoding them yields `Read(None)`, not the original value. -/
theorem c1_roundtrip_counterexample :
    (W1NetlinkCommand.read (some [])).serialize = .ok [0, 0, 0, 0] ∧
    W1NetlinkCommand.deserialize [0, 0, 0, 0] = .ok (.read none, 0) ∧
    W1NetlinkCommand.read none ≠ W1NetlinkCommand.read (some []) := by decide

/-- C1 (amended): decode-after-encode reproduces the value at the command
layer for every command except `ListSlaves` and `Read` with a present payload
whose length is a multiple of 2^16 (in particular the empty one). -/
theorem c1_command_roundtrip (c : W1NetlinkCommand) (h : cmdRoundtripSupported c) :
    ∃ bytes n, c.serialize = .ok bytes ∧
      W1NetlinkCommand.deserialize bytes = .ok (c, n) := by
  cases c with
  | write pl =>
      refine ⟨1 :: 0 :: (toLE 2 (pl.length % 65536) ++ pl), pl.length % 65536,
        write_serialize pl, ?_⟩
      simp only [toLE, List.cons_append, List.nil_append]
      simp [W1NetlinkCommand.deserialize, fromLE]
      omega
  | read pl =>
      match pl with
      | none => exact ⟨[0, 0, 0, 0], 0, by decide, by decide⟩
      | some pl =>
          simp only [cmdRoundtripSupported] at h
          refine ⟨0 :: 0 :: (toLE 2 (pl.length % 65536) ++ pl), pl.length % 65536,
            read_some_serialize pl, ?_⟩
          simp only [toLE, List.cons_append, List.nil_append]
          have hlen : fromLE [pl.length % 65536 % 256, pl.length % 65536 / 256 % 256] =
              pl.length % 65536 := by
            simp [fromLE]; omega
          simp [W1NetlinkCommand.deserialize, hlen, Nat.pos_of_ne_zero h]
  | search => exact ⟨[2, 0, 0, 0], 0, by decide, by decide⟩
  | alarmSearch => exact ⟨[3, 0, 0, 0], 0, by decide, by decide⟩
  | touch => exact ⟨[4, 0, 0, 0], 0, by decide, by decide⟩
  | reset => exact ⟨[5, 0, 0, 0], 0, by decide, by decide⟩
  | listSlaves => exact absurd h (by simp [cmdRoundtripSupported])

/-- C1 (witness): the amended round-trip applied to the concrete command
`Write [171]`. -/
theorem c1_command_roundtrip_witness :
    cmdRoundtripSupported (.write [171]) ∧
    ∃ bytes n, (W1NetlinkCommand.write [171]).serialize = .ok bytes ∧
      W1NetlinkCommand.deserialize bytes = .ok (.write [171], n) :=
  ⟨by simp [cmdRoundtripSupported],
    c1_command_roundtrip (.write [171]) (by simp [cmdRoundtripSupported])⟩

/-- C2 (code bug): a well-formed envelope frame whose payload bytes hold one
serialized `ListMasters` message (shown decodable by the first conjunct)
passes all the envelope header checks, yet envelope decode returns an empty
message list: the decode loop's condition reads the length of the freshly
created accumulator vector instead of the remaining payload bytes, so the
message layer is never invoked. -/
theorem c2_envelope_decode_drops_messages :
    W1NetlinkMessage.deserialize [6, 0, 0, 0, 0, 0, 0, 0, 0, 0, 0, 0] =
      .ok (.listMasters (some []), 12) ∧
    NlConnectorMessage.deserialize 11
      ([3, 0, 0, 0, 1, 0, 0, 0, 0, 0, 0, 0, 0, 0, 0, 0, 32, 0, 0, 0] ++
        [6, 0, 0, 0, 0, 0, 0, 0, 0, 0, 0, 0]) =
      .ok { header := { seq := 0, ack := 0, flags := 0 }, payload := [] } := by decide

/-- C3 (counterexample): a 24-byte frame whose declared `len` (4) equals the
number of payload bytes after the 20-byte header and whose `family_idx` is 7
should, per the claim's check order and length semantics, fail with
`UnexpectedIdx(3, 7)`; the code instead fails with `InvalidPayloadLength`,
because it compares `len` against the length of the whole input including the
header (24) and performs that comparison before the `idx` check. -/
theorem c3_check_order_counterexample :
    NlConnectorMessage.deserialize 11
      [7, 0, 0, 0, 1, 0, 0, 0, 0, 0, 0, 0, 0, 0, 0, 0, 4, 0, 0, 0, 9, 9, 9, 9] =
      .err .invalidPayloadLength ∧
    NlConnectorMessage.deserialize 11
      [7, 0, 0, 0, 1, 0, 0, 0, 0, 0, 0, 0, 0, 0, 0, 0, 4, 0, 0, 0, 9, 9, 9, 9] ≠
      .err (.unexpectedIdx 3 7) := by decide

/-- C3 (amended): envelope decode performs, in this order: (a) the transport
message type must equal the netlink-connector identifier, else
`InvalidMessageType`; then the 20-byte header is split off, and input shorter
than 20 bytes panics (there is no `InvalidLength` error at this layer);
(b) the declared `len` must equal the length of the whole supplied slice,
20-byte header included, else `InvalidPayloadLength`; (c) `family_idx` must
equal 3, else `UnexpectedIdx(3, actual)`; (d) `family_val` must equal 1, else
`UnexpectedVal(1, actual)`; after all checks pass, decode succeeds — with an
always-empty message list. -/
theorem c3_envelope_checks (mt : Nat) (p : List Nat) :
    (mt ≠ 11 → NlConnectorMessage.deserialize mt p = .err .invalidMessageType) ∧
    (p.length < 20 → NlConnectorMessage.deserialize 11 p = .panicked) ∧
    (20 ≤ p.length → fromLE ((p.drop 16).take 2) ≠ p.length →
      NlConnectorMessage.deserialize 11 p = .err .invalidPayloadLength) ∧
    (20 ≤ p.length → fromLE ((p.drop 16).take 2) = p.length →
      fromLE (p.take 4) ≠ 3 →
      NlConnectorMessage.deserialize 11 p = .err (.unexpectedIdx 3 (fromLE (p.take 4)))) ∧
    (20 ≤ p.length → fromLE ((p.drop 16).take 2) = p.length →
      fromLE (p.take 4) = 3 → fromLE ((p.drop 4).take 4) ≠ 1 →
      NlConnectorMessage.deserialize 11 p =
        .err (.unexpectedVal 1 (fromLE ((p.drop 4).take 4)))) ∧
    (20 ≤ p.length → fromLE ((p.drop 16).take 2) = p.length →
      fromLE (p.take 4) = 3 → fromLE ((p.drop 4).take 4) = 1 →
      NlConnectorMessage.deserialize 11 p =
        .ok { header := { seq := fromLE ((p.drop 8).take 4),
                          ack := fromLE ((p.drop 12).take 4),
                          flags := fromLE ((p.drop 18).take 2) },
              payload := [] }) := by
  refine ⟨fun h => ?_, fun h => ?_, fun h1 h2 => ?_, fun h1 h2 h3 => ?_,
    fun h1 h2 h3 h4 => ?_, fun h1 h2 h3 h4 => ?_⟩
  · simp [NlConnectorMessage.deserialize, NETLINK_CONNECTOR, h]
  · simp [NlConnectorMessage.deserialize, NETLINK_CONNECTOR, h]
  · simp [NlConnectorMessage.deserialize, NETLINK_CONNECTOR, CONNECTOR_W1_IDX,
      CONNECTOR_W1_VAL, Nat.not_lt.mpr h1, h2]
  · simp [NlConnectorMessage.deserialize, NETLINK_CONNECTOR, CONNECTOR_W1_IDX,
      CONNECTOR_W1_VAL, Nat.not_lt.mpr h1, h2, h3]
  · simp [NlConnectorMessage.deserialize, NETLINK_CONNECTOR, CONNECTOR_W1_IDX,
      CONNECTOR_W1_VAL, Nat.not_lt.mpr h1, h2, h3, h4]
  · simp [NlConnectorMessage.deserialize, NETLINK_CONNECTOR, CONNECTOR_W1_IDX,
      CONNECTOR_W1_VAL, Nat.not_lt.mpr h1, h2, h3, h4]

/-- C3 (witness): the amended envelope checks applied to six concrete frames,
one per check outcome. -/
theorem c3_envelope_checks_witness :
    NlConnectorMessage.deserialize 7 [] = .err .invalidMessageType ∧
    NlConnectorMessage.deserialize 11 [0] = .panicked ∧
    NlConnectorMessage.deserialize 11 (List.replicate 20 0) = .err .invalidPayloadLength ∧
    NlConnectorMessage.deserialize 11
      [7, 0, 0, 0, 1, 0, 0, 0, 0, 0, 0, 0, 0, 0, 0, 0, 20, 0, 0, 0] =
      .err (.unexpectedIdx 3 7) ∧
    NlConnectorMessage.deserialize 11
      [3, 0, 0, 0, 9, 0, 0, 0, 0, 0, 0, 0, 0, 0, 0, 0, 20, 0, 0, 0] =
      .err (.unexpectedVal 1 9) ∧
    NlConnectorMessage.deserialize 11
      [3, 0, 0, 0, 1, 0, 0, 0, 0, 0, 0, 0, 0, 0, 0, 0, 20, 0, 0, 0] =
      .ok { header := { seq := 0, ack := 0, flags := 0 }, payload := [] } :=
  ⟨(c3_envelope_checks 7 []).1 (by decide),
    (c3_envelope_checks 11 [0]).2.1 (by decide),
    (c3_envelope_checks 11 (List.replicate 20 0)).2.2.1 (by decide) (by decide),
    (c3_envelope_checks 11
      [7, 0, 0, 0, 1, 0, 0, 0, 0, 0, 0, 0, 0, 0, 0, 0, 20, 0, 0, 0]).2.2.2.1
      (by decide) (by decide) (by decide),
    (c3_envelope_checks 11
      [3, 0, 0, 0, 9, 0, 0, 0, 0, 0, 0, 0, 0, 0, 0, 0, 20, 0, 0, 0]).2.2.2.2.1
      (by decide) (by decide) (by decide) (by decide),
    (c3_envelope_checks 11
      [3, 0, 0, 0, 1, 0, 0, 0, 0, 0, 0, 0, 0, 0, 0, 0, 20, 0, 0, 0]).2.2.2.2.2
      (by decide) (by decide) (by decide) (by decide)⟩

/-- C4 (code bug): decoding the body bytes `02 00 00 00` — one concatenated
`Search` record, taken from the message portion of the repository's own
`deserialize_search_response` test vector — never terminates instead of
consuming `4 + 0` bytes and yielding `[Search]`: command decode reports `len`
(here 0) as the bytes consumed, so the sequence loop never advances its
cursor.  The first conjunct shows the single record itself decodes fine with
a reported consumption of 0 bytes. -/
theorem c4_command_sequence_diverges :
    W1NetlinkCommand.deserialize [2, 0, 0, 0] = .ok (.search, 0) ∧
    W1NetlinkMessage.deserialize [4, 0, 4, 0, 1, 0, 0, 0, 0, 0, 0, 0, 2, 0, 0, 0] =
      .diverge := by decide

/-- C5 (code bug): decoding a `Read` record with declared `len = 4` followed
by the four payload bytes `DE AD BE EF` and one stray byte `FF` returns
bytes consumed = 4 (the body length alone, not `4 + 4`) and a payload of all
five remaining bytes rather than exactly the four declared ones; a `Write`
record with `len = 2` followed by three bytes likewise reports 2 consumed and
swallows all three. -/
theorem c5_command_consumed_bytes :
    W1NetlinkCommand.deserialize [0, 0, 4, 0, 222, 173, 190, 239, 255] =
      .ok (.read (some [222, 173, 190, 239, 255]), 4) ∧
    W1NetlinkCommand.deserialize [1, 0, 2, 0, 9, 7, 7] =
      .ok (.write [9, 7, 7], 2) := by decide

theorem cmd_serialize_ok (c : W1NetlinkCommand) (hc : c ≠ .listSlaves) :
    ∃ bl bs, c.buffer_len = .ok bl ∧ c.serializeInto (List.replicate bl 0) = .ok bs := by
  cases c with
  | write pl =>
      refine ⟨pl.length + 4, 1 :: 0 :: (toLE 2 (pl.length % 65536) ++ pl), rfl, ?_⟩
      simp only [W1NetlinkCommand.serializeInto, W1NetlinkCommand.buffer_len,
        W1NetlinkCommand.opcode, List.length_replicate]
      rw [if_neg (by omega), if_pos (by omega)]
      simp [Nat.add_sub_cancel]
  | read pl =>
      match pl with
      | none => exact ⟨4, [0, 0, 0, 0], rfl, by decide⟩
      | some pl =>
          have h1 : ((some pl).map List.length).getD 0 = pl.length := rfl
          refine ⟨pl.length + 4, 0 :: 0 :: (toLE 2 (pl.length % 65536) ++ pl), ?_, ?_⟩
          · simp [W1NetlinkCommand.buffer_len]
          · simp only [W1NetlinkCommand.serializeInto, W1NetlinkCommand.buffer_len,
              W1NetlinkCommand.opcode, List.length_replicate, h1]
            rw [if_neg (by omega), if_pos (by omega)]
            simp [Nat.add_sub_cancel]
  | search => exact ⟨4, [2, 0, 0, 0], rfl, by decide⟩
  | alarmSearch => exact ⟨4, [3, 0, 0, 0], rfl, by decide⟩
  | touch => exact ⟨4, [4, 0, 0, 0], rfl, by decide⟩
  | reset => exact ⟨4, [5, 0, 0, 0], rfl, by decide⟩
  | listSlaves => exact absurd rfl hc

/-- C6 (counterexample): encoding is not total.  `buffer_len`/`serialize`
panic via `todo!()` for `SlaveCommand`, `MasterEvent` and `SlaveEvent`
messages and for the `ListSlaves` command. -/
theorem c6_encode_panics_counterexample :
    (W1NetlinkMessage.slaveEvent .add 5).serialize = .panicked ∧
    (W1NetlinkMessage.slaveCommand 1 []).serialize = .panicked ∧
    (W1NetlinkMessage.masterEvent .add 1).serialize = .panicked ∧
    W1NetlinkCommand.listSlaves.buffer_len = .panicked ∧
    W1NetlinkCommand.listSlaves.serialize = .panicked := by decide

/-- C6 (amended): `buffer_len` and `serialize` are total (they never panic)
for every command other than `ListSlaves`, for `ListMasters` messages with or
without identifiers, and for `MasterCommand` messages with an empty command
list or with exactly one non-`ListSlaves` command; the `SlaveCommand`,
`MasterEvent` and `SlaveEvent` messages and the `ListSlaves` command panic
(`todo!()`), as can multi-command `MasterCommand` values whose payload-bearing
commands are written into the shared, larger buffer. -/
theorem c6_encode_total_amended (c : W1NetlinkCommand) (hc : c ≠ .listSlaves)
    (ids : Option (List Nat)) (t : Nat) :
    c.serialize ≠ .panicked ∧ c.buffer_len ≠ .panicked ∧
    (W1NetlinkMessage.listMasters ids).serialize ≠ .panicked ∧
    (W1NetlinkMessage.masterCommand t []).serialize ≠ .panicked ∧
    (W1NetlinkMessage.masterCommand t [c]).serialize ≠ .panicked := by
  obtain ⟨bl, bs, hbl, hsi⟩ := cmd_serialize_ok c hc
  refine ⟨?_, ?_, ?_, ?_, ?_⟩
  · simp [W1NetlinkCommand.serialize, hbl, hsi]
  · simp [hbl]
  · cases ids <;> simp [W1NetlinkMessage.serialize, W1NetlinkMessage.buffer_len]
  · simp [W1NetlinkMessage.serialize, W1NetlinkMessage.buffer_len, cmdListBufferLen,
      cmdListSerializeLoop]
  · have h1 : cmdListBufferLen [c] = .ok (bl + 0) := by
      simp [cmdListBufferLen, hbl]
    simp [W1NetlinkMessage.serialize, W1NetlinkMessage.buffer_len, h1,
      cmdListSerializeLoop, hsi]

/-- C6 (witness): the amended totality statement applied to the `Search`
command, the identifier list `[1, 2]` and target 1. -/
theorem c6_encode_total_witness :
    W1NetlinkCommand.search.serialize ≠ .panicked ∧
    W1NetlinkCommand.search.buffer_len ≠ .panicked ∧
    (W1NetlinkMessage.listMasters (some [1, 2])).serialize ≠ .panicked ∧
    (W1NetlinkMessage.masterCommand 1 []).serialize ≠ .panicked ∧
    (W1NetlinkMessage.masterCommand 1 [.search]).serialize ≠ .panicked :=
  c6_encode_total_amended .search (by decide) (some [1, 2]) 1

/-- C7 (counterexample): the claim says a nonzero status byte is surfaced to
the caller as a returned result; decoding this 12-byte message with status 1
instead panics (the `status > 0` branch is `todo!()`) and returns nothing. -/
theorem c7_status_counterexample :
    W1NetlinkMessage.deserialize [6, 1, 0, 0, 0, 0, 0, 0, 0, 0, 0, 0] = .panicked := by decide

/-- C7 (amended): for every message whose status byte is nonzero, decode
stops before interpreting the message type or the body — but by panicking
via `todo!()` rather than by returning a result. -/
theorem c7_status_short_circuit (t s l0 l1 i0 i1 i2 i3 i4 i5 i6 i7 : Nat)
    (rest : List Nat) (hs : s ≠ 0) :
    W1NetlinkMessage.deserialize
      (t :: s :: l0 :: l1 :: i0 :: i1 :: i2 :: i3 :: i4 :: i5 :: i6 :: i7 :: rest) =
      .panicked := by
  simp [W1NetlinkMessage.deserialize, Nat.pos_of_ne_zero hs]

/-- C7 (witness): the amended short-circuit applied to a concrete
`MasterCmd` message with status 2 and a command body that would otherwise
decode. -/
theorem c7_status_short_circuit_witness :
    W1NetlinkMessage.deserialize
      (4 :: 2 :: 0 :: 0 :: 1 :: 0 :: 0 :: 0 :: 0 :: 0 :: 0 :: 0 :: [1, 0, 1, 0, 9]) =
      .panicked :=
  c7_status_short_circuit 4 2 0 0 1 0 0 0 0 0 0 0 [1, 0, 1, 0, 9] (by decide)

/-- C8 (counterexample): decoding an opcode-6 (`SlaveAdd`) or opcode-7
(`SlaveRemove`) record does not produce a `NotImplemented` error value — no
such variant exists in the command error type — it crashes: the
`unimplemented!()` branch panics. -/
theorem c8_not_implemented_counterexample :
    W1NetlinkCommand.deserialize [6, 0, 0, 0] = .panicked ∧
    W1NetlinkCommand.deserialize [7, 0, 0, 0] = .panicked := by decide

/-- C8 (amended): decoding a command record whose opcode is 6 (`SlaveAdd`) or
7 (`SlaveRemove`) always aborts loudly — by an `unimplemented!()` panic, not
by returning an error value — and never silently truncates or misparses the
record. -/
theorem c8_slave_add_remove_panic (r l0 l1 : Nat) (rest : List Nat) :
    W1NetlinkCommand.deserialize (6 :: r :: l0 :: l1 :: rest) = .panicked ∧
    W1NetlinkCommand.deserialize (7 :: r :: l0 :: l1 :: rest) = .panicked := by
  constructor <;> simp [W1NetlinkCommand.deserialize]

theorem parseU32List_none : ∀ body : List Nat, body.length % 4 ≠ 0 →
    parseU32List body = none
  | [], h => absurd rfl h
  | a :: b :: c :: d :: rest, h => by
      have ih := parseU32List_none rest (by simp only [List.length_cons] at h ⊢; omega)
      simp [parseU32List, ih]
  | [_], _ => rfl
  | [_, _], _ => rfl
  | [_, _, _], _ => rfl

/-- C9 (counterexample): decoding a message from fewer bytes than the fixed
12-byte header does not fail with `InvalidLength` — the message-layer error
type has no such variant — it panics on the out-of-bounds header split. -/
theorem c9_short_header_counterexample :
    W1NetlinkMessage.deserialize [6] = .panicked := by decide

/-- C9 (amended): a `ListMasters` body whose trailing chunk is 1–3 bytes
(body length not a multiple of 4) fails with `InvalidPayloadLength`, and
decoding a message from fewer than 12 bytes panics on the header split
instead of returning an `InvalidLength` error. -/
theorem c9_truncation_amended :
    (∀ l0 l1 i0 i1 i2 i3 i4 i5 i6 i7 : Nat, ∀ body : List Nat,
      body.length % 4 ≠ 0 →
      W1NetlinkMessage.deserialize
        (6 :: 0 :: l0 :: l1 :: i0 :: i1 :: i2 :: i3 :: i4 :: i5 :: i6 :: i7 :: body) =
        .err .invalidPayloadLength) ∧
    (∀ p : List Nat, p.length < 12 → W1NetlinkMessage.deserialize p = .panicked) := by
  constructor
  · intro l0 l1 i0 i1 i2 i3 i4 i5 i6 i7 body h
    simp [W1NetlinkMessage.deserialize, parseU32List_none body h]
  · intro p h
    rcases p with _ | ⟨b0, _ | ⟨b1, _ | ⟨b2, _ | ⟨b3, _ | ⟨b4, _ | ⟨b5, _ | ⟨b6,
      _ | ⟨b7, _ | ⟨b8, _ | ⟨b9, _ | ⟨b10, _ | ⟨b11, rest⟩⟩⟩⟩⟩⟩⟩⟩⟩⟩⟩⟩ <;>
      first
        | rfl
        | (simp only [List.length_cons] at h; omega)

/-- C9 (witness): the amended truncation behaviour applied to a `ListMasters`
message with a 3-byte trailing chunk and to a 1-byte input. -/
theorem c9_truncation_witness :
    W1NetlinkMessage.deserialize
      (6 :: 0 :: 0 :: 0 :: 0 :: 0 :: 0 :: 0 :: 0 :: 0 :: 0 :: 0 :: [1, 2, 3]) =
      .err .invalidPayloadLength ∧
    W1NetlinkMessage.deserialize [9] = .panicked :=
  ⟨c9_truncation_amended.1 0 0 0 0 0 0 0 0 0 0 [1, 2, 3] (by decide),
    c9_truncation_amended.2 [9] (by decide)⟩

/-- C10 (confirmed): message decode never produces `ListMasters(None)`: a
successful `ListMasters` decode always carries a present identifier list
(an empty body decodes to `Some []`, third conjunct), while encode serializes
the constructible `ListMasters(None)` to exactly the same bytes as the empty
present list (second conjunct). -/
theorem c10_list_masters_never_none :
    (∀ p : List Nat, ∀ n : Nat,
      W1NetlinkMessage.deserialize p ≠ .ok (.listMasters none, n)) ∧
    W1NetlinkMessage.serialize (.listMasters none) =
      W1NetlinkMessage.serialize (.listMasters (some [])) ∧
    W1NetlinkMessage.deserialize [6, 0, 0, 0, 0, 0, 0, 0, 0, 0, 0, 0] =
      .ok (.listMasters (some []), 12) := by
  refine ⟨?_, by decide, by decide⟩
  intro p n h
  rcases p with _ | ⟨b0, _ | ⟨b1, _ | ⟨b2, _ | ⟨b3, _ | ⟨b4, _ | ⟨b5, _ | ⟨b6,
    _ | ⟨b7, _ | ⟨b8, _ | ⟨b9, _ | ⟨b10, _ | ⟨b11, rest⟩⟩⟩⟩⟩⟩⟩⟩⟩⟩⟩⟩ <;>
    try exact DOutcome.noConfusion h
  simp only [W1NetlinkMessage.deserialize] at h
  split_ifs at h <;> (try split at h) <;> simp_all

/-- C10 (witness): the never-`None` property applied to a concrete decodable
`ListMasters` frame with one identifier. -/
theorem c10_list_masters_witness :
    W1NetlinkMessage.deserialize
      [6, 0, 4, 0, 0, 0, 0, 0, 0, 0, 0, 0, 1, 0, 0, 0] ≠
      .ok (.listMasters none, 16) :=
  c10_list_masters_never_none.1 [6, 0, 4, 0, 0, 0, 0, 0, 0, 0, 0, 0, 1, 0, 0, 0] 16
